import Mathlib

/-!
Verification of the EaseVerse asset-generation scripts.

The development shallowly embeds the two Python scripts of the repository:

* `scripts/generate_apple_icons.py` — a supersampled icon renderer: a fixed
  catalog of pure builder functions issues drawing-primitive calls on a
  2048×2048 transparent RGBA canvas, which is then downsampled to 512×512 and
  written to a registered destination path.
* `scripts/optimize_web_assets.py` — a PNG re-encoder that writes a
  `stem.web.png` sibling for every qualifying source PNG, falling back to a
  byte-identical copy when the re-encode is larger.

Drawing is modelled at the level of the primitive-call trace: a `Canvas`
records its dimensions, color mode, background fill and the ordered list of
primitive calls issued on it.  The PIL rasterizer, the PNG codec and the
LANCZOS resampler are external to the repository and enter the model only as
abstract function parameters; filesystem state is a map from paths to file
contents.  All integer arithmetic of the scripts is Python `int` arithmetic
and is embedded as `ℤ`; the coordinate scaler `_w`, whose Python parameter is
typed `float`, takes an exact rational.
-/

/-- Target side length of every persisted icon (`SIZE = 512`). -/
def SIZE : ℕ := 512

/-- Supersampling factor (`SCALE = 4`). -/
def SCALE : ℕ := 4

/-- Side length of the supersampled drawing canvas (`CANVAS = SIZE * SCALE`). -/
def CANVAS : ℕ := SIZE * SCALE

/-- An RGBA color, as the 4-tuples used by the script. -/
abbrev Color := ℕ × ℕ × ℕ × ℕ

/-- Palette entry `WHITE = (243, 246, 252, 255)`. -/
def WHITE : Color := (243, 246, 252, 255)

/-- Palette entry `SOFT_WHITE = (220, 228, 242, 255)`. -/
def SOFT_WHITE : Color := (220, 228, 242, 255)

/-- Palette entry `BLUE = (10, 132, 255, 255)`. -/
def BLUE : Color := (10, 132, 255, 255)

/-- Palette entry `ORANGE = (255, 159, 10, 255)`. -/
def ORANGE : Color := (255, 159, 10, 255)

/-- Palette entry `RED = (255, 69, 58, 255)`. -/
def RED : Color := (255, 69, 58, 255)

/-- Palette entry `GREEN = (52, 199, 89, 255)`. -/
def GREEN : Color := (52, 199, 89, 255)

/-- Embedding of `_w(value) = int(value * SCALE)`.  Python `int()` on a float
truncates toward zero; on the exact rational `value * SCALE` this is the
truncating division of `value.num * SCALE` by `value.den` (truncation of a
fraction does not depend on the representative, so no normalization of the
product is needed). -/
def _w (value : ℚ) : ℤ := Int.tdiv (value.num * (SCALE : ℤ)) (value.den : ℤ)

/-- Embedding of `_stroke(base) = _w(base)`. -/
def _stroke (base : ℚ) : ℤ := _w base

/-- The scaler applied at an integer argument.  Every call site of `_w` in the
script passes a Python `int`; loops that compute the argument do so in `int`
arithmetic, embedded here as `ℤ` before the cast into the scaler. -/
def _wi (value : ℤ) : ℤ := _w (value : ℚ)

/-- PIL color modes used by either script. -/
inductive PILMode where
  | RGBA
  | RGB
  deriving DecidableEq

/-- One drawing-primitive call as issued by a builder on an `ImageDraw`
handle.  Bounding boxes are `(x0, y0, x1, y1)` in canvas units, point lists
are `(x, y)` pairs, and angles are PIL degrees.  Optional `outline`/`fill`
arguments default to `none`; `width` defaults are PIL's (1, except 0 for
`line`), matching the call sites, which always pass a width where it matters. -/
inductive DrawCmd where
  | ellipse (box : ℤ × ℤ × ℤ × ℤ) (outline : Option Color) (fill : Option Color) (width : ℤ)
  | arc (box : ℤ × ℤ × ℤ × ℤ) (startAngle : ℤ) (endAngle : ℤ) (fill : Color) (width : ℤ)
  | line (pts : List (ℤ × ℤ)) (fill : Color) (width : ℤ) (joint : Option String)
  | polygon (pts : List (ℤ × ℤ)) (outline : Option Color) (fill : Option Color) (width : ℤ)
  | rounded_rectangle (box : ℤ × ℤ × ℤ × ℤ) (radius : ℤ) (outline : Option Color)
      (fill : Option Color) (width : ℤ)
  | text (pos : ℤ × ℤ) (glyph : String) (fill : Color) (fontSize : ℤ)
  deriving DecidableEq

/-- A drawing surface: dimensions, color mode, the background fill it was
created with, and the ordered trace of primitive calls drawn onto it. -/
structure Canvas where
  width : ℕ
  height : ℕ
  mode : PILMode
  background : Color
  cmds : List DrawCmd
  deriving DecidableEq

/-- Embedding of `_new()`: `Image.new("RGBA", (CANVAS, CANVAS), (0, 0, 0, 0))`
together with its draw handle. -/
def _new : Canvas :=
  { width := CANVAS, height := CANVAS, mode := PILMode.RGBA
    background := (0, 0, 0, 0), cmds := [] }

/-- Issue one primitive call on a canvas (the effect of a `d.…` call). -/
def draw (c : Canvas) (cmd : DrawCmd) : Canvas :=
  { c with cmds := c.cmds ++ [cmd] }

/-- Embedding of the `_rounded_rect` helper:
`draw.rounded_rectangle(xy, radius=radius, outline=outline, width=width)`. -/
def _rounded_rect (c : Canvas) (xy : ℤ × ℤ × ℤ × ℤ) (radius : ℤ) (outline : Color)
    (width : ℤ) : Canvas :=
  draw c (DrawCmd.rounded_rectangle xy radius (some outline) none width)

/-- Embedding of `icon_singing()`. -/
def icon_singing : Canvas :=
  let s := _stroke 42
  let c := _new
  let c := draw c (DrawCmd.ellipse (_w 180, _w 90, _w 332, _w 250) (some WHITE) none s)
  let c := draw c (DrawCmd.arc (_w 180, _w 154, _w 332, _w 316) 20 160 WHITE s)
  let c := draw c (DrawCmd.line [(_w 256, _w 250), (_w 256, _w 372)] WHITE s none)
  let c := draw c (DrawCmd.arc (_w 174, _w 356, _w 338, _w 432) 200 340 WHITE s)
  draw c (DrawCmd.line [(_w 384, _w 180), (_w 422, _w 164), (_w 462, _w 180), (_w 500, _w 164)]
    ORANGE (_stroke 24) (some "curve"))

/-- Embedding of `icon_lyrics()`. -/
def icon_lyrics : Canvas :=
  let s := _stroke 34
  let c := _new
  let c := _rounded_rect c (_w 108, _w 80, _w 336, _w 426) (_w 28) WHITE s
  let c := draw c (DrawCmd.line [(_w 142, _w 170), (_w 280, _w 170)] SOFT_WHITE (_stroke 26) none)
  let c := draw c (DrawCmd.line [(_w 142, _w 230), (_w 280, _w 230)] SOFT_WHITE (_stroke 26) none)
  let c := draw c (DrawCmd.line [(_w 142, _w 290), (_w 240, _w 290)] SOFT_WHITE (_stroke 26) none)
  let c := draw c (DrawCmd.line [(_w 330, _w 174), (_w 426, _w 142), (_w 426, _w 288)]
    BLUE (_stroke 30) (some "curve"))
  let c := draw c (DrawCmd.ellipse (_w 298, _w 300, _w 352, _w 354) none (some BLUE) 1)
  draw c (DrawCmd.ellipse (_w 394, _w 268, _w 448, _w 322) none (some BLUE) 1)

/-- Embedding of `icon_sessions()`. -/
def icon_sessions : Canvas :=
  let s := _stroke 30
  let c := _new
  let c := _rounded_rect c (_w 130, _w 132, _w 318, _w 390) (_w 24) SOFT_WHITE s
  let c := _rounded_rect c (_w 176, _w 96, _w 364, _w 354) (_w 24) WHITE s
  let c := _rounded_rect c (_w 222, _w 62, _w 410, _w 320) (_w 24) WHITE s
  let c := draw c (DrawCmd.line [(_w 252, _w 142), (_w 374, _w 142)] SOFT_WHITE (_stroke 20) none)
  let c := draw c (DrawCmd.line [(_w 252, _w 198), (_w 360, _w 198)] SOFT_WHITE (_stroke 20) none)
  draw c (DrawCmd.line [(_w 252, _w 254), (_w 338, _w 254)] SOFT_WHITE (_stroke 20) none)

/-- Embedding of `icon_profile()`. -/
def icon_profile : Canvas :=
  let s := _stroke 34
  let c := _new
  let c := draw c (DrawCmd.ellipse (_w 186, _w 82, _w 326, _w 222) (some WHITE) none s)
  draw c (DrawCmd.rounded_rectangle (_w 104, _w 236, _w 408, _w 412) (_w 90) (some WHITE) none s)

/-- Embedding of `icon_live_mode()`. -/
def icon_live_mode : Canvas :=
  let s := _stroke 32
  let c := _new
  let c := _rounded_rect c (_w 84, _w 138, _w 430, _w 346) (_w 50) WHITE s
  let c := draw c (DrawCmd.ellipse (_w 372, _w 172, _w 420, _w 220) none (some ORANGE) 1)
  draw c (DrawCmd.line [(_w 158, _w 244), (_w 356, _w 244)] SOFT_WHITE (_stroke 24) none)

/-- Embedding of `icon_lyrics_sync()`. -/
def icon_lyrics_sync : Canvas :=
  let s := _stroke 28
  let c := _new
  let c := _rounded_rect c (_w 194, _w 174, _w 318, _w 334) (_w 20) WHITE s
  let c := draw c (DrawCmd.arc (_w 70, _w 70, _w 442, _w 442) 35 170 WHITE s)
  let c := draw c (DrawCmd.polygon [(_w 420, _w 120), (_w 462, _w 120), (_w 438, _w 160)]
    none (some WHITE) 1)
  let c := draw c (DrawCmd.arc (_w 70, _w 70, _w 442, _w 442) 215 350 WHITE s)
  draw c (DrawCmd.polygon [(_w 92, _w 394), (_w 132, _w 394), (_w 108, _w 430)]
    none (some WHITE) 1)

/-- Embedding of `icon_feedback(high)`: four feedback bars, ascending heights
when `high` and descending otherwise, with the accent on bar 3 (`high`) or
bar 0 (`not high`). -/
def icon_feedback (high : Bool) : Canvas :=
  let base_y := _w 390
  let bar_w := _w 54
  let gap := _w 34
  let heights : List ℤ :=
    if high then [_w 120, _w 170, _w 230, _w 280] else [_w 260, _w 210, _w 160, _w 110]
  let s := heights.enum.foldl
    (fun (acc : Canvas × ℤ) ih =>
      let i := ih.1
      let h := ih.2
      let color := if (high && i == 3) || (!high && i == 0) then ORANGE else SOFT_WHITE
      (draw acc.1 (DrawCmd.rounded_rectangle (acc.2, base_y - h, acc.2 + bar_w, base_y)
          (_w 16) none (some color) 1),
        acc.2 + bar_w + gap))
    (_new, _w 112)
  s.1

/-- Embedding of `icon_mindfulness_voice()`. -/
def icon_mindfulness_voice : Canvas :=
  let s := _stroke 34
  let c := _new
  let c := draw c (DrawCmd.ellipse (_w 182, _w 92, _w 330, _w 248) (some WHITE) none s)
  let c := draw c (DrawCmd.arc (_w 182, _w 154, _w 330, _w 308) 20 160 WHITE s)
  let c := draw c (DrawCmd.line [(_w 256, _w 246), (_w 256, _w 350)] WHITE s none)
  let c := draw c (DrawCmd.arc (_w 174, _w 336, _w 338, _w 412) 200 340 WHITE s)
  draw c (DrawCmd.line [(_w 350, _w 250), (_w 382, _w 214), (_w 414, _w 266), (_w 452, _w 228),
    (_w 490, _w 246)] ORANGE (_stroke 24) (some "curve"))

/-- Embedding of `icon_language_accent()`. -/
def icon_language_accent : Canvas :=
  let s := _stroke 26
  let c := _new
  let c := draw c (DrawCmd.ellipse (_w 90, _w 84, _w 358, _w 352) (some WHITE) none s)
  let c := draw c (DrawCmd.arc (_w 120, _w 84, _w 328, _w 352) 90 270 SOFT_WHITE (_stroke 20))
  let c := draw c (DrawCmd.arc (_w 140, _w 84, _w 308, _w 352) 90 270 SOFT_WHITE (_stroke 16))
  let c := draw c (DrawCmd.line [(_w 90, _w 218), (_w 358, _w 218)] SOFT_WHITE (_stroke 20) none)
  let c := draw c (DrawCmd.rounded_rectangle (_w 292, _w 148, _w 456, _w 274) (_w 46)
    (some WHITE) none s)
  let c := draw c (DrawCmd.polygon [(_w 330, _w 274), (_w 300, _w 308), (_w 334, _w 292)]
    none (some WHITE) 1)
  ([338, 374, 410] : List ℤ).foldl
    (fun c x =>
      draw c (DrawCmd.ellipse (_wi x, _w 198, _wi (x + 20), _w 218)
        none (some ORANGE) 1))
    c

/-- Embedding of `icon_howto()`. -/
def icon_howto : Canvas :=
  let s := _stroke 30
  let c := _new
  let c := _rounded_rect c (_w 110, _w 92, _w 402, _w 424) (_w 34) WHITE s
  let c := _rounded_rect c (_w 198, _w 58, _w 314, _w 118) (_w 18) WHITE (_stroke 24)
  let c := draw c (DrawCmd.line [(_w 156, _w 192), (_w 292, _w 192)] SOFT_WHITE (_stroke 20) none)
  let c := draw c (DrawCmd.line [(_w 156, _w 246), (_w 272, _w 246)] SOFT_WHITE (_stroke 20) none)
  let c := draw c (DrawCmd.line [(_w 156, _w 300), (_w 292, _w 300)] SOFT_WHITE (_stroke 20) none)
  let c := draw c (DrawCmd.ellipse (_w 286, _w 174, _w 404, _w 292) (some WHITE) none (_stroke 20))
  let c := draw c (DrawCmd.polygon [(_w 330, _w 208), (_w 330, _w 258), (_w 372, _w 233)]
    none (some BLUE) 1)
  draw c (DrawCmd.text (_w 382, _w 94) "?" ORANGE (_w 82))

/-- Embedding of `icon_record()`. -/
def icon_record : Canvas :=
  let c := _new
  let c := draw c (DrawCmd.ellipse (_w 108, _w 108, _w 404, _w 404) (some RED) none (_stroke 36))
  draw c (DrawCmd.ellipse (_w 194, _w 194, _w 318, _w 318) none (some RED) 1)

/-- Embedding of `icon_stop()`. -/
def icon_stop : Canvas :=
  draw _new (DrawCmd.rounded_rectangle (_w 128, _w 128, _w 384, _w 384) (_w 76)
    none (some RED) 1)

/-- Embedding of `icon_metronome()`. -/
def icon_metronome : Canvas :=
  let s := _stroke 26
  let c := _new
  let c := draw c (DrawCmd.polygon [(_w 256, _w 92), (_w 128, _w 412), (_w 384, _w 412)]
    (some WHITE) (some (0, 0, 0, 0)) s)
  let c := draw c (DrawCmd.line [(_w 256, _w 180), (_w 338, _w 308)] ORANGE (_stroke 24) none)
  draw c (DrawCmd.ellipse (_w 324, _w 292, _w 362, _w 330) none (some ORANGE) 1)

/-- Embedding of `icon_flag()`. -/
def icon_flag : Canvas :=
  let s := _stroke 24
  let c := _new
  let c := draw c (DrawCmd.line [(_w 146, _w 88), (_w 146, _w 420)] WHITE s none)
  let c := draw c (DrawCmd.polygon [(_w 158, _w 110), (_w 376, _w 154), (_w 158, _w 210)]
    none (some ORANGE) 1)
  draw c (DrawCmd.line [(_w 146, _w 420), (_w 222, _w 420)] WHITE s none)

/-- Embedding of `icon_bpm()`. -/
def icon_bpm : Canvas :=
  let s := _stroke 24
  let c := _new
  let c := draw c (DrawCmd.polygon [(_w 256, _w 92), (_w 144, _w 354), (_w 368, _w 354)]
    (some WHITE) (some (0, 0, 0, 0)) s)
  let c := draw c (DrawCmd.line [(_w 256, _w 184), (_w 316, _w 276)] ORANGE (_stroke 20) none)
  let c := draw c (DrawCmd.ellipse (_w 300, _w 260, _w 332, _w 292) none (some ORANGE) 1)
  draw c (DrawCmd.line [(_w 92, _w 418), (_w 184, _w 418), (_w 214, _w 392), (_w 242, _w 436),
    (_w 272, _w 406), (_w 420, _w 406)] BLUE (_stroke 16) (some "curve"))

/-- Embedding of `icon_count_in()`: the loop enumerates `(170, 230, 290, 350)`
with indices starting at 1, accenting the marker with index 4. -/
def icon_count_in : Canvas :=
  let s := _stroke 20
  let c := _new
  let c := draw c (DrawCmd.arc (_w 82, _w 82, _w 430, _w 430) 300 580 WHITE s)
  let c := ([170, 230, 290, 350] : List ℤ).enum.foldl
    (fun c ix =>
      let i := ix.1 + 1
      let x := ix.2
      let color := if i == 4 then ORANGE else SOFT_WHITE
      draw c (DrawCmd.ellipse (_wi x, _w 244, _wi (x + 30), _w 274)
        none (some color) 1))
    c
  draw c (DrawCmd.line [(_w 256, _w 112), (_w 256, _w 170)] ORANGE (_stroke 16) none)

/-- Embedding of `icon_lyrics_flow()`. -/
def icon_lyrics_flow : Canvas :=
  let c := _new
  let c := draw c (DrawCmd.line [(_w 98, _w 170), (_w 290, _w 170)] SOFT_WHITE (_stroke 24) none)
  let c := draw c (DrawCmd.polygon [(_w 290, _w 146), (_w 352, _w 170), (_w 290, _w 194)]
    none (some SOFT_WHITE) 1)
  let c := draw c (DrawCmd.line [(_w 98, _w 256), (_w 330, _w 256)] WHITE (_stroke 24) none)
  let c := draw c (DrawCmd.polygon [(_w 330, _w 230), (_w 394, _w 256), (_w 330, _w 282)]
    none (some BLUE) 1)
  let c := draw c (DrawCmd.line [(_w 98, _w 340), (_w 370, _w 340)] SOFT_WHITE (_stroke 24) none)
  draw c (DrawCmd.polygon [(_w 370, _w 314), (_w 434, _w 340), (_w 370, _w 366)]
    none (some ORANGE) 1)

/-- Embedding of `icon_about()`. -/
def icon_about : Canvas :=
  let c := _new
  let c := draw c (DrawCmd.ellipse (_w 110, _w 110, _w 402, _w 402) (some WHITE) none (_stroke 28))
  let c := draw c (DrawCmd.ellipse (_w 244, _w 168, _w 268, _w 192) none (some BLUE) 1)
  draw c (DrawCmd.line [(_w 256, _w 216), (_w 256, _w 330)] WHITE (_stroke 26) none)

/-- Embedding of `icon_no_song()`. -/
def icon_no_song : Canvas :=
  let c := _new
  let c := _rounded_rect c (_w 120, _w 96, _w 318, _w 394) (_w 24) SOFT_WHITE (_stroke 26)
  let c := draw c (DrawCmd.line [(_w 338, _w 170), (_w 418, _w 144), (_w 418, _w 258)]
    BLUE (_stroke 20) (some "curve"))
  let c := draw c (DrawCmd.ellipse (_w 312, _w 274, _w 358, _w 320) none (some BLUE) 1)
  draw c (DrawCmd.line [(_w 118, _w 402), (_w 404, _w 108)] ORANGE (_stroke 22) none)

/-- Embedding of `icon_gender(female)`: the head outline and body outline are
common; the accent element is an arc when `female`, otherwise a filled
rounded rectangle. -/
def icon_gender (female : Bool) : Canvas :=
  let s := _stroke 24
  let c := _new
  let c := draw c (DrawCmd.ellipse (_w 180, _w 96, _w 332, _w 248) (some WHITE) none s)
  let c :=
    if female then
      draw c (DrawCmd.arc (_w 158, _w 90, _w 354, _w 286) 205 335 BLUE (_stroke 30))
    else
      draw c (DrawCmd.rounded_rectangle (_w 176, _w 90, _w 336, _w 156) (_w 26)
        none (some BLUE) 1)
  draw c (DrawCmd.rounded_rectangle (_w 108, _w 252, _w 404, _w 418) (_w 90) (some WHITE) none s)

/-- Embedding of `icon_beats(count)`: `count` markers at logical x-positions
`start + i * spacing` with `start = 256 - (count - 1) * spacing // 2`
(Python floor division), accenting the last marker. -/
def icon_beats (count : ℤ) : Canvas :=
  let spacing : ℤ := 70
  let total : ℤ := (count - 1) * spacing
  let start : ℤ := 256 - Int.fdiv total 2
  let c := (List.range count.toNat).foldl
    (fun c i =>
      let x : ℤ := start + (i : ℤ) * spacing
      let color := if (i : ℤ) = count - 1 then ORANGE else SOFT_WHITE
      draw c (DrawCmd.ellipse (_wi (x - 22), _w 220, _wi (x + 22), _w 264)
        none (some color) 1))
    _new
  draw c (DrawCmd.line [(_w 130, _w 320), (_w 382, _w 320)] WHITE (_stroke 18) none)

/-- Embedding of `icon_easepocket()`. -/
def icon_easepocket : Canvas :=
  let c := _new
  let c := draw c (DrawCmd.ellipse (_w 92, _w 86, _w 420, _w 414) (some SOFT_WHITE) none
    (_stroke 20))
  let c := draw c (DrawCmd.line [(_w 124, _w 256), (_w 188, _w 256), (_w 236, _w 210),
    (_w 280, _w 302), (_w 336, _w 236), (_w 390, _w 236)] BLUE (_stroke 20) (some "curve"))
  let c := draw c (DrawCmd.ellipse (_w 356, _w 146, _w 392, _w 182) none (some ORANGE) 1)
  draw c (DrawCmd.ellipse (_w 140, _w 318, _w 170, _w 348) none (some (120, 120, 255, 210)) 1)

/-- A filesystem path as its list of components below the repository root
(`ROOT`); both scripts address files below `ROOT`. -/
abbrev RelPath := List String

/-- The asset root `ASSETS = ROOT / "assets" / "images"`, relative to `ROOT`. -/
def ASSETS : RelPath := ["assets", "images"]

/-- The icon-set directory `ICON_SET = ASSETS / "icon-set"`. -/
def ICON_SET : RelPath := ASSETS ++ ["icon-set"]

/-- Rendering of a path relative to `ROOT` with `/` separators, as produced by
`path.relative_to(ROOT)` in log lines and by `.as_posix()` in the optimizer. -/
def relStr (p : RelPath) : String := String.intercalate "/" p

/-- Last path component (`path.name`). -/
def pathName (p : RelPath) : String := p.getLastD ""

/-- Embedding of the `ICON_BUILD` registry: the ordered list of
(destination path, builder thunk) pairs. -/
def ICON_BUILD : List (RelPath × (Unit → Canvas)) := [
  (ICON_SET ++ ["Singing.png"], fun _ => icon_singing),
  (ICON_SET ++ ["Lyrics.png"], fun _ => icon_lyrics),
  (ICON_SET ++ ["sessions.png"], fun _ => icon_sessions),
  (ICON_SET ++ ["Profile.png"], fun _ => icon_profile),
  (ICON_SET ++ ["Live_mode.png"], fun _ => icon_live_mode),
  (ICON_SET ++ ["Lyrics_sync.png"], fun _ => icon_lyrics_sync),
  (ICON_SET ++ ["Feedback_intensity_high.png"], fun _ => icon_feedback true),
  (ICON_SET ++ ["Feedback_intensity_low.png"], fun _ => icon_feedback false),
  (ICON_SET ++ ["Mindfullness_voice.png"], fun _ => icon_mindfulness_voice),
  (ICON_SET ++ ["Language_accent.png"], fun _ => icon_language_accent),
  (ICON_SET ++ ["howto-icon.png"], fun _ => icon_howto),
  (ASSETS ++ ["record_icon.png"], fun _ => icon_record),
  (ASSETS ++ ["Stop_icon.png"], fun _ => icon_stop),
  (ASSETS ++ ["metronome_icon.png"], fun _ => icon_metronome),
  (ASSETS ++ ["flag_icon.png"], fun _ => icon_flag),
  (ASSETS ++ ["bpm_icon.png"], fun _ => icon_bpm),
  (ASSETS ++ ["count_in_icon.png"], fun _ => icon_count_in),
  (ASSETS ++ ["lyrics_flow_speed_icon.png"], fun _ => icon_lyrics_flow),
  (ASSETS ++ ["about_icon.png"], fun _ => icon_about),
  (ASSETS ++ ["nosong_state.png"], fun _ => icon_no_song),
  (ASSETS ++ ["Female.png"], fun _ => icon_gender true),
  (ASSETS ++ ["Male.png"], fun _ => icon_gender false),
  (ASSETS ++ ["two_beats.png"], fun _ => icon_beats 2),
  (ASSETS ++ ["four_beats.png"], fun _ => icon_beats 4),
  (ASSETS ++ ["EasePocket.png"], fun _ => icon_easepocket)]

/-- Filesystem state: file contents (of an abstract content type `β`, supplied
by the PNG encoder parameter) indexed by path; `none` means no file. -/
def FS (β : Type) : Type := RelPath → Option β

/-- Writing a file: the destination is overwritten unconditionally. -/
def fsWrite {β : Type} (fs : FS β) (p : RelPath) (c : β) : FS β :=
  fun q => if q = p then some c else fs q

/-- Embedding of PIL `img.resize((w, h), …)`: the pixel resampling itself is
external, but the result's dimensions are `(w, h)` and its mode is the mode
of `img`. -/
def resize (img : Canvas) (w h : ℕ) : Canvas :=
  { img with width := w, height := h }

/-- Embedding of `_save(img, target)`: create parent directories (implicit in
the path-indexed filesystem model), resize the canvas down to
`(SIZE, SIZE)`, encode it through the (external) PNG encoder `encodePNG`, and
write the bytes to `target`, overwriting any existing file. -/
def _save {β : Type} (encodePNG : Canvas → β) (fs : FS β) (img : Canvas) (target : RelPath) :
    FS β :=
  fsWrite fs target (encodePNG (resize img SIZE SIZE))

/-- One iteration of the `__main__` loop: persist the entry's canvas and emit
its `generated …` log line. -/
def mainStep {β : Type} (encodePNG : Canvas → β) (acc : FS β × List String)
    (e : RelPath × (Unit → Canvas)) : FS β × List String :=
  (_save encodePNG acc.1 (e.2 ()) e.1,
    acc.2 ++ ["generated " ++ relStr e.1])

/-- Embedding of the `__main__` entry point: fold the loop body over
`ICON_BUILD`, returning the final filesystem and the printed lines in order. -/
def mainRun {β : Type} (encodePNG : Canvas → β) (fs : FS β) : FS β × List String :=
  ICON_BUILD.foldl (mainStep encodePNG) (fs, [])

/-- File contents for the optimizer, as byte lists. -/
abbrev Bytes := List ℕ

/-- Embedding of `SKIP_PREFIXES`. -/
def SKIP_PREFIXES : List String := ["assets/images/web/"]

/-- Embedding of `SKIP_EXACT`. -/
def SKIP_EXACT : List String :=
  ["assets/images/android-icon-background.png",
   "assets/images/android-icon-foreground.png",
   "assets/images/android-icon-monochrome.png"]

/-- Python `s.startswith(pre)` on the character sequences of the strings. -/
def strStartsWith (s pre : String) : Bool := pre.data.isPrefixOf s.data

/-- Python `s.endswith(suf)` on the character sequences of the strings. -/
def strEndsWith (s suf : String) : Bool := suf.data.isSuffixOf s.data

/-- Embedding of `should_process(path)`: reject paths under a skip prefix,
paths in the exact skip set, and names already carrying the `.web.png`
variant suffix. -/
def should_process (p : RelPath) : Bool :=
  let rel := relStr p
  if SKIP_PREFIXES.any (fun pre => strStartsWith rel pre) then false
  else if rel ∈ SKIP_EXACT then false
  else if strEndsWith (pathName p) ".web.png" then false
  else true

/-- A path matches the `rglob("*.png")` pattern iff its final component ends
in `.png`. -/
def matchesPngGlob (p : RelPath) : Bool := strEndsWith (pathName p) ".png"

/-- Lexicographic order on path components, the order `sorted()` uses on
`pathlib` paths. -/
def pathLe : RelPath → RelPath → Bool
  | [], _ => true
  | _ :: _, [] => false
  | a :: as, b :: bs => if a = b then pathLe as bs else decide (a < b)

/-- Embedding of `discover_sources()` over an abstract enumeration `tree` of
the files below `IMAGES_ROOT`: keep the PNG files accepted by
`should_process`, sorted. -/
def discover_sources (tree : List RelPath) : List RelPath :=
  (tree.filter fun p => matchesPngGlob p && should_process p).mergeSort pathLe

/-- Index (from the front) of the last `'.'` in a character list, if any;
CPython's `name.rfind('.')` restricted to found/not-found. -/
def rfindDot : List Char → Option ℕ
  | [] => none
  | c :: t =>
    match rfindDot t with
    | some i => some (i + 1)
    | none => if c = '.' then some 0 else none

/-- Embedding of `PurePath.stem`: the name without its suffix, where CPython
takes the suffix to be `name[i:]` for `i = name.rfind('.')` only when
`0 < i < len(name) - 1`. -/
def pyStem (n : String) : String :=
  match rfindDot n.data with
  | some i => if 0 < i ∧ i < n.data.length - 1 then String.mk (n.data.take i) else n
  | none => n

/-- Embedding of `path.with_name(name)`: replace the final component. -/
def with_name (p : RelPath) (name : String) : RelPath := p.dropLast ++ [name]

/-- Destination path of `optimize`: `src.with_name(f"{src.stem}.web.png")`. -/
def optimizeDst (src : RelPath) : RelPath := with_name src (pyStem (pathName src) ++ ".web.png")

/-- Bands of a PIL image as returned by `getbands()`. -/
structure PILImage where
  bands : List String
  deriving DecidableEq

/-- Mode selected by `optimize` before re-encoding:
`image.convert("RGBA") if "A" in image.getbands() else image.convert("RGB")`. -/
def convertMode (image : PILImage) : PILMode :=
  if image.bands.contains "A" then PILMode.RGBA else PILMode.RGB

/-- Embedding of the size logic of `optimize(src)`.  `encode` is the external
lossless PNG codec (the `optimized.save(…, optimize=True, compress_level=9)`
step); `src` is the source file's bytes.  Returns the bytes written to the
destination together with the `before` and `after` sizes reported: when the
re-encode is larger than the source, the destination is rewritten with
`shutil.copyfile(src, dst)` and re-measured. -/
def optimize (encode : Bytes → Bytes) (src : Bytes) : Bytes × ℕ × ℕ :=
  let before := src.length
  let encoded := encode src
  let after := encoded.length
  if before < after then (src, before, src.length) else (encoded, before, after)

/-- Percentage-reduction report used by `run` both per file and in total:
`0.0 if before == 0 else (1 - after / before) * 100`. -/
def reduction (before after : ℕ) : ℚ :=
  if before = 0 then 0 else (1 - (after : ℚ) / (before : ℚ)) * 100

/-- Aggregate state of `run`: the per-file `(before, after, reduction)`
report lines, the file count, the totals, and the total reduction. -/
structure RunReport where
  perFile : List (ℕ × ℕ × ℚ)
  count : ℕ
  total_before : ℕ
  total_after : ℕ
  total_reduction : ℚ
  deriving DecidableEq

/-- Embedding of `run(sources)`: optimize every source in order, accumulating
totals and reporting per-file and total percentage reductions. -/
def run (encode : Bytes → Bytes) (sources : List Bytes) : RunReport :=
  let s := sources.foldl
    (fun (acc : List (ℕ × ℕ × ℚ) × ℕ × ℕ × ℕ) src =>
      let r := optimize encode src
      let before := r.2.1
      let after := r.2.2
      (acc.1 ++ [(before, after, reduction before after)],
        acc.2.1 + 1, acc.2.2.1 + before, acc.2.2.2 + after))
    ([], 0, 0, 0)
  { perFile := s.1, count := s.2.1, total_before := s.2.2.1, total_after := s.2.2.2,
    total_reduction := reduction s.2.2.1 s.2.2.2 }

/-- The filled (marker) ellipses of a canvas trace, with their fill colors, in
drawing order. -/
def fillEllipses (c : Canvas) : List ((ℤ × ℤ × ℤ × ℤ) × Color) :=
  c.cmds.filterMap fun cmd =>
    match cmd with
    | DrawCmd.ellipse box none (some f) _ => some (box, f)
    | _ => none

/-- The filled rounded rectangles of a canvas trace (the feedback bars), with
their radii and fill colors, in drawing order. -/
def fillRoundedRects (c : Canvas) : List ((ℤ × ℤ × ℤ × ℤ) × ℤ × Color) :=
  c.cmds.filterMap fun cmd =>
    match cmd with
    | DrawCmd.rounded_rectangle box radius none (some f) _ => some (box, radius, f)
    | _ => none

/-- Horizontal center of a bounding box, in canvas units. -/
def centerX (box : ℤ × ℤ × ℤ × ℤ) : ℤ := (box.1 + box.2.2.1) / 2

/-- Differences between successive elements of a list. -/
def gaps : List ℤ → List ℤ
  | a :: b :: t => (b - a) :: gaps (b :: t)
  | _ => []

/-- The filesystem effect of the `__main__` loop over a list of entries,
without the log lines. -/
def writeAll {β : Type} (encodePNG : Canvas → β) (entries : List (RelPath × (Unit → Canvas)))
    (fs : FS β) : FS β :=
  entries.foldl (fun f e => _save encodePNG f (e.2 ()) e.1) fs

lemma writeAll_not_mem {β : Type} (encodePNG : Canvas → β) :
    ∀ (entries : List (RelPath × (Unit → Canvas))) (fs : FS β) (p : RelPath),
      p ∉ entries.map Prod.fst → writeAll encodePNG entries fs p = fs p := by
  intro entries
  induction entries with
  | nil => intro fs p _; rfl
  | cons e t ih =>
    intro fs p hp
    simp only [List.map_cons, List.mem_cons, not_or] at hp
    have hstep : writeAll encodePNG (e :: t) fs
        = writeAll encodePNG t (_save encodePNG fs (e.2 ()) e.1) := rfl
    rw [hstep, ih _ p hp.2]
    simp [_save, fsWrite, hp.1]

lemma writeAll_indep {β : Type} (encodePNG : Canvas → β) :
    ∀ (entries : List (RelPath × (Unit → Canvas))) (fs fs' : FS β) (p : RelPath),
      p ∈ entries.map Prod.fst →
      writeAll encodePNG entries fs p = writeAll encodePNG entries fs' p := by
  intro entries
  induction entries with
  | nil => intro fs fs' p hp; simp at hp
  | cons e t ih =>
    intro fs fs' p hp
    have hstep : ∀ g : FS β, writeAll encodePNG (e :: t) g
        = writeAll encodePNG t (_save encodePNG g (e.2 ()) e.1) := fun g => rfl
    rw [hstep, hstep]
    by_cases hmem : p ∈ t.map Prod.fst
    · exact ih _ _ p hmem
    · simp only [List.map_cons, List.mem_cons] at hp
      have hpe : p = e.1 := hp.resolve_right hmem
      rw [writeAll_not_mem _ _ _ _ hmem, writeAll_not_mem _ _ _ _ hmem]
      simp [_save, fsWrite, hpe]

lemma writeAll_mem_nodup {β : Type} (encodePNG : Canvas → β) :
    ∀ (entries : List (RelPath × (Unit → Canvas))) (fs : FS β),
      (entries.map Prod.fst).Nodup →
      ∀ e ∈ entries, writeAll encodePNG entries fs e.1
        = some (encodePNG (resize (e.2 ()) SIZE SIZE)) := by
  intro entries
  induction entries with
  | nil => intro fs _ e he; simp at he
  | cons a t ih =>
    intro fs hnd e he
    simp only [List.map_cons, List.nodup_cons] at hnd
    have hstep : writeAll encodePNG (a :: t) fs
        = writeAll encodePNG t (_save encodePNG fs (a.2 ()) a.1) := rfl
    rcases List.mem_cons.1 he with he' | he'
    · subst he'
      rw [hstep, writeAll_not_mem _ _ _ _ hnd.1]
      simp [_save, fsWrite]
    · rw [hstep]
      exact ih _ hnd.2 e he'

lemma mainFold_fst {β : Type} (encodePNG : Canvas → β) :
    ∀ (entries : List (RelPath × (Unit → Canvas))) (fs : FS β) (lines : List String),
      (entries.foldl (mainStep encodePNG) (fs, lines)).1 = writeAll encodePNG entries fs := by
  intro entries
  induction entries with
  | nil => intro fs lines; rfl
  | cons e t ih =>
    intro fs lines
    exact ih _ _

lemma mainFold_snd {β : Type} (encodePNG : Canvas → β) :
    ∀ (entries : List (RelPath × (Unit → Canvas))) (fs : FS β) (lines : List String),
      (entries.foldl (mainStep encodePNG) (fs, lines)).2
        = lines ++ entries.map (fun e => "generated " ++ relStr e.1) := by
  intro entries
  induction entries with
  | nil => intro fs lines; simp
  | cons e t ih =>
    intro fs lines
    have hstep : (e :: t).foldl (mainStep encodePNG) (fs, lines)
        = t.foldl (mainStep encodePNG)
            (_save encodePNG fs (e.2 ()) e.1, lines ++ ["generated " ++ relStr e.1]) := rfl
    rw [hstep, ih]
    simp

/-- Unfold the scaler at its numeric constant. -/
lemma _w_def (q : ℚ) : _w q = Int.tdiv (q.num * 4) (q.den : ℤ) := by
  norm_num [_w, SCALE]

lemma _w_nonneg_floor (q : ℚ) (h : 0 ≤ q) : _w q = ⌊q * 4⌋ := by
  have hn : 0 ≤ q.num := Rat.num_nonneg.2 h
  have h4 : (0 : ℤ) ≤ q.num * 4 := mul_nonneg hn (by norm_num)
  have hden : (0 : ℤ) ≤ (q.den : ℤ) := Int.ofNat_nonneg _
  have hd : ((q.den : ℕ) : ℚ) ≠ 0 := by exact_mod_cast q.den_ne_zero
  have hq : q * 4 = ((q.num * 4 : ℤ) : ℚ) / ((q.den : ℕ) : ℚ) := by
    conv_lhs => rw [← Rat.num_div_den q]
    push_cast
    field_simp
  rw [_w_def, Int.tdiv_eq_ediv h4 hden, hq, Rat.floor_intCast_div_natCast]

lemma _w_neg_ceil (q : ℚ) (h : q < 0) : _w q = ⌈q * 4⌉ := by
  have hn : q.num < 0 := by
    by_contra h'
    push_neg at h'
    exact absurd (Rat.num_nonneg.1 h') (not_le.2 h)
  have h4 : (0 : ℤ) ≤ -(q.num * 4) := by nlinarith
  have hden : (0 : ℤ) ≤ (q.den : ℤ) := Int.ofNat_nonneg _
  have hd : ((q.den : ℕ) : ℚ) ≠ 0 := by exact_mod_cast q.den_ne_zero
  have hceil : (⌈q * 4⌉ : ℤ) = -⌊-(q * 4)⌋ := by
    rw [Int.floor_neg]
    ring
  have hq : -(q * 4) = ((-(q.num * 4) : ℤ) : ℚ) / ((q.den : ℕ) : ℚ) := by
    conv_lhs => rw [← Rat.num_div_den q]
    push_cast
    field_simp
  have htd : Int.tdiv (q.num * 4) (q.den : ℤ) = -Int.tdiv (-(q.num * 4)) (q.den : ℤ) := by
    rw [← Int.neg_tdiv, neg_neg]
  rw [_w_def, htd, Int.tdiv_eq_ediv h4 hden, hceil, hq, Rat.floor_intCast_div_natCast]

lemma _w_intCast (n : ℤ) : _w (n : ℚ) = 4 * n := by
  rw [_w_def, Rat.num_intCast, Rat.den_intCast]
  simp [Int.tdiv_one, mul_comm]

lemma reduction_self (b : ℕ) : reduction b b = 0 := by
  unfold reduction
  by_cases hb : b = 0
  · simp [hb]
  · have hbq : ((b : ℕ) : ℚ) ≠ 0 := by exact_mod_cast hb
    simp [hb, div_self hbq]

lemma rfindDot_append_of_isSome :
    ∀ (l m : List Char) (i : ℕ), rfindDot m = some i →
      rfindDot (l ++ m) = some (l.length + i) := by
  intro l m i hm
  induction l with
  | nil => simpa using hm
  | cons c t ih =>
    have : rfindDot (c :: (t ++ m)) = some (t.length + i + 1) := by
      rw [rfindDot, ih]
    simpa [Nat.add_assoc, Nat.add_comm, Nat.add_left_comm] using this

lemma rfindDot_dotpng : rfindDot ".png".data = some 0 := by decide

lemma pathName_with_name (p : RelPath) (n : String) : pathName (with_name p n) = n := by
  simp [pathName, with_name, List.getLastD_concat]

lemma pyStem_append_png (s : String) (hs : s ≠ "") : pyStem (s ++ ".png") = s := by
  have hd : (s ++ ".png").data = s.data ++ ".png".data := String.data_append s _
  have hpnglen : (".png".data).length = 4 := by decide
  have hdot : rfindDot (s ++ ".png").data = some s.data.length := by
    rw [hd]
    have := rfindDot_append_of_isSome s.data ".png".data 0 rfindDot_dotpng
    simpa using this
  have hne : s.data ≠ [] := by
    intro h0
    apply hs
    cases s with
    | mk d =>
      simp only at h0
      subst h0
      rfl
  have hlen : 0 < s.data.length := List.length_pos.2 hne
  have hcond : 0 < s.data.length ∧ s.data.length < (s ++ ".png").data.length - 1 := by
    refine ⟨hlen, ?_⟩
    rw [hd, List.length_append, hpnglen]
    omega
  simp only [pyStem, hdot, if_pos hcond]
  rw [hd, List.take_left]

/-- C1, counterexample: the Coordinate Scaler does not round to nearest.  At
`v = 19/10` the code's `_w` (truncation toward zero of `v * SCALE = 7.6`)
returns 7, while rounding to the nearest integer returns 8. -/
theorem c1_round_counterexample :
    _w (19 / 10 : ℚ) ≠ round ((19 / 10 : ℚ) * (SCALE : ℚ)) := by
  have h1 : _w (19 / 10 : ℚ) = 7 := by
    rw [_w_nonneg_floor _ (by norm_num),
      show ((19 : ℚ) / 10) * 4 = ((38 : ℤ) : ℚ) / ((5 : ℕ) : ℚ) by norm_num,
      Rat.floor_intCast_div_natCast]
    decide
  have h2 : round ((19 / 10 : ℚ) * (SCALE : ℚ)) = 8 := by
    rw [show ((19 : ℚ) / 10) * (SCALE : ℚ) = 38 / 5 by norm_num [SCALE], round_eq,
      show (38 : ℚ) / 5 + 1 / 2 = ((81 : ℤ) : ℚ) / ((10 : ℕ) : ℚ) by norm_num,
      Rat.floor_intCast_div_natCast]
    decide
  rw [h1, h2]
  decide

/-- C1, amended: for every logical value `v`, the Coordinate Scaler returns
`int(v * SUPERSAMPLE_FACTOR)`, the truncation toward zero of `v * 4` (the
floor for nonnegative `v`, the ceiling for negative `v`), not the nearest
integer; on the integer arguments every builder passes, truncation and
rounding agree and the result is exactly `4 * v`. -/
theorem c1_truncation :
    (∀ q : ℚ, 0 ≤ q → _w q = ⌊q * (SCALE : ℚ)⌋) ∧
    (∀ q : ℚ, q < 0 → _w q = ⌈q * (SCALE : ℚ)⌉) ∧
    (∀ n : ℤ, _w (n : ℚ) = (SCALE : ℤ) * n ∧
      _w (n : ℚ) = round ((n : ℚ) * (SCALE : ℚ))) := by
  have hS : ((SCALE : ℕ) : ℚ) = 4 := by norm_num [SCALE]
  refine ⟨?_, ?_, ?_⟩
  · intro q h
    rw [hS]
    exact _w_nonneg_floor q h
  · intro q h
    rw [hS]
    exact _w_neg_ceil q h
  · intro n
    have h4 : _w (n : ℚ) = 4 * n := _w_intCast n
    constructor
    · rw [h4]
      norm_num [SCALE]
    · rw [hS, h4, show ((n : ℚ) * 4) = ((4 * n : ℤ) : ℚ) by push_cast; ring, round_intCast]

/-- Witness for `c1_truncation` at `q = 19/10`, `q = -19/10` and `n = 3`. -/
theorem c1_truncation_witness :
    ((0 : ℚ) ≤ 19 / 10 ∧ _w (19 / 10 : ℚ) = ⌊(19 / 10 : ℚ) * (SCALE : ℚ)⌋) ∧
    ((-19 / 10 : ℚ) < 0 ∧ _w (-19 / 10 : ℚ) = ⌈(-19 / 10 : ℚ) * (SCALE : ℚ)⌉) ∧
    _w ((3 : ℤ) : ℚ) = (SCALE : ℤ) * 3 :=
  ⟨⟨by norm_num, c1_truncation.1 _ (by norm_num)⟩,
   ⟨by norm_num, c1_truncation.2.1 _ (by norm_num)⟩,
   (c1_truncation.2.2 3).1⟩

/-- C2: the canvas created by `_new` is a 2048×2048 RGBA surface, fully
transparent (background `(0,0,0,0)`, no primitive drawn yet); every canvas
produced by any registered builder has side exactly `CANVAS = 512 * 4 = 2048`,
RGBA mode and the transparent background; and the persisted output —
the canvas after `_save`'s resize — is exactly 512×512 in RGBA mode. -/
theorem c2_canvas_and_output_invariants :
    (_new.width = 2048 ∧ _new.height = 2048 ∧ _new.mode = PILMode.RGBA ∧
      _new.background = (0, 0, 0, 0) ∧ _new.cmds = []) ∧
    (∀ i : Fin ICON_BUILD.length,
      ((ICON_BUILD.get i).2 ()).width = CANVAS ∧ ((ICON_BUILD.get i).2 ()).height = CANVAS ∧
      ((ICON_BUILD.get i).2 ()).mode = PILMode.RGBA ∧
      ((ICON_BUILD.get i).2 ()).background = (0, 0, 0, 0)) ∧
    (∀ img : Canvas, (resize img SIZE SIZE).width = 512 ∧ (resize img SIZE SIZE).height = 512 ∧
      (resize img SIZE SIZE).mode = img.mode) ∧
    (∀ i : Fin ICON_BUILD.length,
      (resize ((ICON_BUILD.get i).2 ()) SIZE SIZE).width = 512 ∧
      (resize ((ICON_BUILD.get i).2 ()) SIZE SIZE).height = 512 ∧
      (resize ((ICON_BUILD.get i).2 ()) SIZE SIZE).mode = PILMode.RGBA) := by
  refine ⟨by decide, by decide, ?_, by decide⟩
  intro img
  exact ⟨rfl, rfl, rfl⟩

/-- C3: `icon_beats 2` draws exactly 2 marker ellipses and `icon_beats 4`
exactly 4, in both cases with constant spacing between the marker centers,
centered as a group on the logical midpoint `x = 256` (the centers sum to
`count * _w 256`), the last marker filled `ORANGE` and all earlier markers
filled `SOFT_WHITE`. -/
theorem c3_beats_markers :
    ((fillEllipses (icon_beats 2)).length = 2 ∧
      (gaps ((fillEllipses (icon_beats 2)).map fun m => centerX m.1)).Pairwise (· = ·) ∧
      ((fillEllipses (icon_beats 2)).map fun m => centerX m.1).sum = 2 * _w 256 ∧
      ((fillEllipses (icon_beats 2)).map Prod.snd).getLast? = some ORANGE ∧
      (∀ col ∈ ((fillEllipses (icon_beats 2)).map Prod.snd).dropLast, col = SOFT_WHITE)) ∧
    ((fillEllipses (icon_beats 4)).length = 4 ∧
      (gaps ((fillEllipses (icon_beats 4)).map fun m => centerX m.1)).Pairwise (· = ·) ∧
      ((fillEllipses (icon_beats 4)).map fun m => centerX m.1).sum = 4 * _w 256 ∧
      ((fillEllipses (icon_beats 4)).map Prod.snd).getLast? = some ORANGE ∧
      (∀ col ∈ ((fillEllipses (icon_beats 4)).map Prod.snd).dropLast, col = SOFT_WHITE)) := by
  decide

/-- C4, counterexample: in the feedback-intensity builder, swapping the
boolean changes more than the single accented element.  Bar index 1 is muted
(`SOFT_WHITE`) for both parameter values, yet its rectangle differs between
`icon_feedback true` and `icon_feedback false` (the height profile changes). -/
theorem c4_boolean_swap_counterexample :
    ((fillRoundedRects (icon_feedback true)).map (fun b => b.2.2))[1]? = some SOFT_WHITE ∧
    ((fillRoundedRects (icon_feedback false)).map (fun b => b.2.2))[1]? = some SOFT_WHITE ∧
    (fillRoundedRects (icon_feedback true))[1]? ≠ (fillRoundedRects (icon_feedback false))[1]? := by
  decide

/-- C4, amended: for the gender builder the boolean swaps exactly one drawn
element — the second of three primitives, which is the `BLUE` arc when
`female` and the `BLUE`-filled rounded rectangle otherwise — and leaves the
other two primitives identical; for the feedback builder the boolean
determines both which bar is accented (the last bar when high, the first when
low, all others `SOFT_WHITE`) and the bars' height profile: the bar count,
x-extents, base line and corner radius are identical between the two
parameter values, while the height (top edge `y0`) of every one of the four
bars differs. -/
theorem c4_boolean_swap :
    ((icon_gender true).cmds.length = 3 ∧ (icon_gender false).cmds.length = 3 ∧
      (icon_gender true).cmds[0]? = (icon_gender false).cmds[0]? ∧
      (icon_gender true).cmds[2]? = (icon_gender false).cmds[2]? ∧
      (icon_gender true).cmds[1]?
        = some (DrawCmd.arc (_w 158, _w 90, _w 354, _w 286) 205 335 BLUE (_stroke 30)) ∧
      (icon_gender false).cmds[1]?
        = some (DrawCmd.rounded_rectangle (_w 176, _w 90, _w 336, _w 156) (_w 26)
            none (some BLUE) 1) ∧
      (icon_gender true).cmds[1]? ≠ (icon_gender false).cmds[1]?) ∧
    ((fillRoundedRects (icon_feedback true)).map (fun b => b.2.2)
        = [SOFT_WHITE, SOFT_WHITE, SOFT_WHITE, ORANGE] ∧
      (fillRoundedRects (icon_feedback false)).map (fun b => b.2.2)
        = [ORANGE, SOFT_WHITE, SOFT_WHITE, SOFT_WHITE] ∧
      (fillRoundedRects (icon_feedback true)).map
          (fun b => (b.1.1, b.1.2.2.1, b.1.2.2.2, b.2.1))
        = (fillRoundedRects (icon_feedback false)).map
          (fun b => (b.1.1, b.1.2.2.1, b.1.2.2.2, b.2.1)) ∧
      (∀ i : Fin 4,
        ((fillRoundedRects (icon_feedback true)).map (fun b => b.1.2.1))[i.val]?
          ≠ ((fillRoundedRects (icon_feedback false)).map (fun b => b.1.2.1))[i.val]?)) := by
  decide

/-- C5: for every source and every behavior of the external PNG codec, the
variant written is never larger than the source; and whenever the re-encode
comes out strictly larger than the source, the bytes written are exactly the
source bytes (the byte-identical copy fallback), the reported after-size
equals the before-size, and the reported per-file reduction is 0. -/
theorem c5_copy_fallback (encode : Bytes → Bytes) (src : Bytes) :
    (optimize encode src).2.2 ≤ (optimize encode src).2.1 ∧
    (src.length < (encode src).length →
      (optimize encode src).1 = src ∧
      (optimize encode src).2.2 = (optimize encode src).2.1 ∧
      reduction (optimize encode src).2.1 (optimize encode src).2.2 = 0) := by
  by_cases h : src.length < (encode src).length
  · have ho : optimize encode src = (src, src.length, src.length) := by
      simp [optimize, h]
    rw [ho]
    exact ⟨le_refl _, fun _ => ⟨rfl, rfl, reduction_self _⟩⟩
  · have ho : optimize encode src = (encode src, src.length, (encode src).length) := by
      simp [optimize, h]
    rw [ho]
    exact ⟨not_lt.1 h, fun h' => absurd h' h⟩

/-- Witness for `c5_copy_fallback`: a one-byte source whose re-encode doubles
in size is copied through unchanged and reported with zero reduction. -/
theorem c5_copy_fallback_witness :
    ([1] : Bytes).length < ((fun (l : Bytes) => l ++ [0]) [1]).length ∧
    (optimize (fun (l : Bytes) => l ++ [0]) [1]).1 = [1] ∧
    reduction (optimize (fun (l : Bytes) => l ++ [0]) [1]).2.1
      (optimize (fun (l : Bytes) => l ++ [0]) [1]).2.2 = 0 :=
  ⟨by decide, ((c5_copy_fallback _ _).2 (by decide)).1, ((c5_copy_fallback _ _).2 (by decide)).2.2⟩

/-- C6: the source-selection predicate accepts a path exactly when its
relative path does not start with the excluded prefix, is not in the excluded
exact set, and its name does not already end in `.web.png`; discovery returns
exactly the PNG files of the tree accepted by the predicate; each accepted
source `stem.png` maps to the sibling destination `stem.web.png`; and the
re-encode normalizes to RGBA when an alpha band is present, RGB otherwise. -/
theorem c6_source_selection :
    (∀ p : RelPath,
      should_process p = true ↔
        ¬ ("assets/images/web/".data <+: (relStr p).data) ∧
        relStr p ∉ SKIP_EXACT ∧
        ¬ (".web.png".data <:+ (pathName p).data)) ∧
    (∀ (tree : List RelPath) (p : RelPath),
      p ∈ discover_sources tree ↔
        p ∈ tree ∧ matchesPngGlob p = true ∧ should_process p = true) ∧
    (∀ (p : RelPath) (s : String), s ≠ "" → pathName p = s ++ ".png" →
      pathName (optimizeDst p) = s ++ ".web.png" ∧ (optimizeDst p).dropLast = p.dropLast) ∧
    (∀ image : PILImage,
      ("A" ∈ image.bands → convertMode image = PILMode.RGBA) ∧
      ("A" ∉ image.bands → convertMode image = PILMode.RGB)) := by
  refine ⟨?_, ?_, ?_, ?_⟩
  · intro p
    unfold should_process
    simp only [SKIP_PREFIXES, List.any_cons, List.any_nil, Bool.or_false, strStartsWith,
      strEndsWith]
    split_ifs with h1 h2 h3
    · simp only [List.isPrefixOf_iff_prefix] at h1
      simp [h1]
    · simp [h2]
    · simp only [List.isSuffixOf_iff_suffix] at h3
      simp [h3]
    · simp only [List.isPrefixOf_iff_prefix] at h1
      simp only [List.isSuffixOf_iff_suffix] at h3
      simp [h1, h2, h3]
  · intro tree p
    simp [discover_sources, List.mem_mergeSort, List.mem_filter, Bool.and_eq_true, and_assoc]
  · intro p s hs hname
    constructor
    · rw [show optimizeDst p = with_name p (pyStem (pathName p) ++ ".web.png") from rfl,
        pathName_with_name, hname, pyStem_append_png s hs]
    · simp only [optimizeDst, with_name, List.dropLast_concat]
  · intro image
    constructor <;> intro h <;> simp [convertMode, h]

/-- Witness for `c6_source_selection`: the naming clause applied to the
accepted source `assets/images/icon.png`. -/
theorem c6_source_selection_witness :
    pathName (optimizeDst ["assets", "images", "icon.png"]) = "icon" ++ ".web.png" ∧
    (optimizeDst ["assets", "images", "icon.png"]).dropLast
      = (["assets", "images", "icon.png"] : RelPath).dropLast :=
  c6_source_selection.2.2.1 ["assets", "images", "icon.png"] "icon" (by decide) (by decide)

/-- C7: builders are deterministic: they are pure functions of their (unit or
discrete) argument, so two invocations of any registered builder thunk yield
equal canvases; moreover the entry point's behavior does not depend on prior
filesystem state — the printed lines are identical for any two starting
filesystems, as are the bytes persisted at every registered path. -/
theorem c7_determinism :
    (∀ i : Fin ICON_BUILD.length, ∀ u v : Unit,
      (ICON_BUILD.get i).2 u = (ICON_BUILD.get i).2 v) ∧
    (∀ (β : Type) (encodePNG : Canvas → β) (fs fs' : FS β),
      (mainRun encodePNG fs).2 = (mainRun encodePNG fs').2) ∧
    (∀ (β : Type) (encodePNG : Canvas → β) (fs fs' : FS β) (p : RelPath),
      p ∈ ICON_BUILD.map Prod.fst →
      (mainRun encodePNG fs).1 p = (mainRun encodePNG fs').1 p) := by
  refine ⟨?_, ?_, ?_⟩
  · intro i u v
    cases u
    cases v
    rfl
  · intro β encodePNG fs fs'
    rw [mainRun, mainRun, mainFold_snd, mainFold_snd]
  · intro β encodePNG fs fs' p hp
    rw [mainRun, mainRun, mainFold_fst, mainFold_fst]
    exact writeAll_indep encodePNG ICON_BUILD fs fs' p hp

/-- Witness for `c7_determinism`: the first registered destination receives
the same bytes whether the catalog starts from an empty filesystem or from
one where every file already exists. -/
theorem c7_determinism_witness :
    (["assets", "images", "icon-set", "Singing.png"] : RelPath) ∈ ICON_BUILD.map Prod.fst ∧
    (mainRun (fun c => c.cmds.length) (fun _ => (none : Option ℕ))).1
        ["assets", "images", "icon-set", "Singing.png"]
      = (mainRun (fun c => c.cmds.length) (fun _ => some 0)).1
        ["assets", "images", "icon-set", "Singing.png"] :=
  ⟨by decide,
   c7_determinism.2.2 ℕ (fun c => c.cmds.length) (fun _ => none) (fun _ => some 0) _ (by decide)⟩

/-- C8: `fsWrite` (the file write of `_save`) overwrites: after writing, the
destination holds exactly the new contents regardless of what was there; and
running the full catalog a second time leaves every registered destination
with the same contents the first run gave it. -/
theorem c8_overwrite_idempotent :
    (∀ (β : Type) (fs : FS β) (p : RelPath) (c : β), fsWrite fs p c p = some c) ∧
    (∀ (β : Type) (encodePNG : Canvas → β) (fs : FS β) (p : RelPath),
      p ∈ ICON_BUILD.map Prod.fst →
      (mainRun encodePNG (mainRun encodePNG fs).1).1 p = (mainRun encodePNG fs).1 p) := by
  constructor
  · intro β fs p c
    simp [fsWrite]
  · intro β encodePNG fs p hp
    simp only [mainRun, mainFold_fst]
    exact writeAll_indep encodePNG ICON_BUILD _ fs p hp

/-- Witness for `c8_overwrite_idempotent`: overwriting a one-element
filesystem, and re-running the catalog over its own output at the first
registered destination. -/
theorem c8_overwrite_idempotent_witness :
    fsWrite (fun _ => (none : Option ℕ)) ["a"] 7 ["a"] = some 7 ∧
    (["assets", "images", "icon-set", "Singing.png"] : RelPath) ∈ ICON_BUILD.map Prod.fst ∧
    (mainRun (fun c => c.cmds.length)
        (mainRun (fun c => c.cmds.length) (fun _ => (none : Option ℕ))).1).1
        ["assets", "images", "icon-set", "Singing.png"]
      = (mainRun (fun c => c.cmds.length) (fun _ => (none : Option ℕ))).1
        ["assets", "images", "icon-set", "Singing.png"] :=
  ⟨c8_overwrite_idempotent.1 ℕ _ _ _, by decide,
   c8_overwrite_idempotent.2 ℕ (fun c => c.cmds.length) _ _ (by decide)⟩

/-- C9: one run of the entry point prints exactly one `generated` line per
registry entry, in registry order, each containing the entry's output path
relative to the repository root; the registered destinations are pairwise
distinct, so every registered entry is visited and persisted exactly once,
and each destination ends up holding the encoding of that entry's rendered,
downsampled canvas. -/
theorem c9_registry_iteration (β : Type) (encodePNG : Canvas → β) (fs : FS β) :
    (mainRun encodePNG fs).2 = ICON_BUILD.map (fun e => "generated " ++ relStr e.1) ∧
    (mainRun encodePNG fs).2.length = ICON_BUILD.length ∧
    (ICON_BUILD.map Prod.fst).Nodup ∧
    (∀ e ∈ ICON_BUILD,
      (mainRun encodePNG fs).1 e.1 = some (encodePNG (resize (e.2 ()) SIZE SIZE))) := by
  refine ⟨?_, ?_, by decide, ?_⟩
  · rw [mainRun, mainFold_snd, List.nil_append]
  · rw [mainRun, mainFold_snd, List.nil_append, List.length_map]
  · intro e he
    rw [mainRun, mainFold_fst]
    exact writeAll_mem_nodup encodePNG ICON_BUILD fs (by decide) e he

/-- Witness for `c9_registry_iteration`: the first registry entry is
persisted at its registered destination. -/
theorem c9_registry_iteration_witness :
    ((ICON_SET ++ ["Singing.png"], fun _ => icon_singing) : RelPath × (Unit → Canvas))
      ∈ ICON_BUILD ∧
    (mainRun (fun c => c.cmds.length) (fun _ => (none : Option ℕ))).1
        (ICON_SET ++ ["Singing.png"])
      = some ((fun (c : Canvas) => c.cmds.length)
        (resize ((fun (_ : Unit) => icon_singing) ()) SIZE SIZE)) :=
  ⟨List.mem_cons_self _ _,
   (c9_registry_iteration ℕ (fun c => c.cmds.length) (fun _ => none)).2.2.2
     (ICON_SET ++ ["Singing.png"], fun _ => icon_singing) (List.mem_cons_self _ _)⟩

/-- C10: the reported percentage reductions never divide by zero: the
per-file reduction is 0 when the file's before-size is 0 and is computed by
division only otherwise; the empty run reports zero files, zero total
before-size and zero total reduction; and whenever the total before-size is
0 the total reduction is 0. -/
theorem c10_no_div_by_zero :
    (∀ after : ℕ, reduction 0 after = 0) ∧
    (∀ before after : ℕ, before ≠ 0 →
      reduction before after = (1 - (after : ℚ) / (before : ℚ)) * 100) ∧
    (∀ encode : Bytes → Bytes, (run encode []).count = 0 ∧ (run encode []).total_before = 0 ∧
      (run encode []).total_reduction = 0) ∧
    (∀ (encode : Bytes → Bytes) (sources : List Bytes),
      (run encode sources).total_before = 0 → (run encode sources).total_reduction = 0) := by
  refine ⟨?_, ?_, ?_, ?_⟩
  · intro after
    simp [reduction]
  · intro before after hb
    simp [reduction, hb]
  · intro encode
    exact ⟨rfl, rfl, by simp [run, reduction]⟩
  · intro encode sources h
    have hr : (run encode sources).total_reduction
        = reduction (run encode sources).total_before (run encode sources).total_after := rfl
    rw [hr, h]
    simp [reduction]

/-- Witness for `c10_no_div_by_zero` at `before = 2`, `after = 1` and the
empty source list. -/
theorem c10_no_div_by_zero_witness :
    (2 : ℕ) ≠ 0 ∧ reduction 2 1 = (1 - (1 : ℚ) / (2 : ℚ)) * 100 ∧
    (run (fun b => b) []).total_before = 0 ∧ (run (fun b => b) []).total_reduction = 0 :=
  ⟨by decide, c10_no_div_by_zero.2.1 2 1 (by decide),
   (c10_no_div_by_zero.2.2.1 _).2.1, c10_no_div_by_zero.2.2.2 _ _ rfl⟩
